import Mathlib

/-!
Shallow embedding of `utoipa-gen/src/path/response.rs`: the response-attribute
parser (`ResponseTuple`), the derive-side descriptor construction
(`DeriveResponse::create_response` and the enum branch of
`DeriveResponse::to_tokens`), the occurrence merge (`DeriveToResponseValue::merge_from`),
the status resolver (`impl Parse for ResponseStatus`), and the emitter
(`impl ToTokens for ResponseTuple`).

Token-stream payloads that the claims treat opaquely (types, schema fragments,
JSON values) are carried as `String`s; fallible operations return `Except`.
-/

deriving instance DecidableEq for Except

namespace Utoipa

/-- Embeds `PathType` (from `path/mod.rs`, used opaquely by `response.rs`):
a body type is a named schema reference, a media type with inline flag, or an
already-generated inline schema fragment paired with its underlying type. -/
inductive PathType where
  | Ref (refType : String)
  | MediaType (ty : String) (is_inline : Bool)
  | InlineSchema (schema : String) (ty : String)
deriving DecidableEq

/-- Embeds `InlineType`: a type reference together with its inline flag. -/
structure InlineType where
  ty : String
  is_inline : Bool
deriving DecidableEq

/-- Embeds `Example` (a named example value, carried opaquely). -/
structure Example where
  name : String
  value : String
deriving DecidableEq

/-- Embeds `Header`: `(name, optional value type, optional description)`. -/
structure Header where
  name : String
  value_type : Option InlineType
  description : Option String
deriving DecidableEq

/-- Embeds `Content(content_type, body, example, examples)`: one explicit
content-variant entry of the `content(...)` list. -/
structure Content where
  content_type : String
  body : PathType
  example_ : Option String
  examples : Option (List Example)
deriving DecidableEq

/-- Embeds `ResponseValue`: the inline (`Value`) form of a response. -/
structure ResponseValue where
  description : String
  response_type : Option PathType
  content_type : Option (List String)
  headers : List Header
  example_ : Option String
  examples : Option (List Example)
  content : List Content
deriving DecidableEq

/-- Embeds `ResponseValue::default()`. -/
def ResponseValue.default : ResponseValue :=
  { description := ""
    response_type := none
    content_type := none
    headers := []
    example_ := none
    examples := none
    content := [] }

/-- Embeds `ResponseTupleInner`: the tagged choice between an inline value and
a reference to another named response. -/
inductive ResponseTupleInner where
  | Value (val : ResponseValue)
  | Ref (ty : InlineType)
deriving DecidableEq

/-- The kind of a `ResponseTupleInner`, used to state that the kind never
switches silently. -/
inductive InnerKind where
  | value
  | ref
deriving DecidableEq

/-- Classifies a `ResponseTupleInner` by its kind. -/
def ResponseTupleInner.kind : ResponseTupleInner → InnerKind
  | .Value _ => .value
  | .Ref _ => .ref

/-- Embeds `ResponseTuple`: status token plus optional inner descriptor.
The status code token stream is carried as a `String`. -/
structure ResponseTuple where
  status_code : String
  inner : Option ResponseTupleInner
deriving DecidableEq

/-- Embeds `ResponseTuple::default()`. -/
def ResponseTuple.default : ResponseTuple :=
  { status_code := "", inner := none }

/-- The fixed conflict message `RESPONSE_INCOMPATIBLE_ATTRIBUTES_MSG`. -/
def RESPONSE_INCOMPATIBLE_ATTRIBUTES_MSG : String :=
  "The `response` attribute may only be used in conjunction with the `status` attribute"

/-- Embeds `ResponseTuple::as_value`: materialises a default `Value` inner when
none is set yet, and errors with the fixed conflict message when the inner is
already a `Ref`. Returns the (possibly updated) tuple. -/
def ResponseTuple.as_value (r : ResponseTuple) : Except String ResponseTuple :=
  let r :=
    if r.inner.isNone then { r with inner := some (.Value ResponseValue.default) } else r
  match r.inner with
  | some (.Value _) => .ok r
  | _ => .error RESPONSE_INCOMPATIBLE_ATTRIBUTES_MSG

/-- Applies a field update to the `Value` inner (the write through the mutable
reference returned by `as_value`); identity when the inner is not a `Value`. -/
def ResponseTuple.update_value (r : ResponseTuple) (f : ResponseValue → ResponseValue) :
    ResponseTuple :=
  match r.inner with
  | some (.Value v) => { r with inner := some (.Value (f v)) }
  | _ => r

/-- Embeds `ResponseTuple::set_ref_type`: sets or replaces a `Ref` inner and
errors with the fixed conflict message when a `Value` inner is already set. -/
def ResponseTuple.set_ref_type (r : ResponseTuple) (ty : InlineType) :
    Except String ResponseTuple :=
  match r.inner with
  | none => .ok { r with inner := some (.Ref ty) }
  | some (.Ref _) => .ok { r with inner := some (.Ref ty) }
  | some (.Value _) => .error RESPONSE_INCOMPATIBLE_ATTRIBUTES_MSG

/-- The fixed unknown-key message `EXPECTED_ATTRIBUTE_MESSAGE` of the
`ResponseTuple` parser. -/
def EXPECTED_ATTRIBUTE_MESSAGE : String :=
  "unexpected attribute, expected any of: status, description, body, content_type, headers, example, examples, response"

/-- One successfully tokenised `key = value` (or `key(...)`) item of a response
tuple, as dispatched by the parser's `match` on the key identifier; `unknown`
carries a key name outside the recognised set. -/
inductive RespAttr where
  | status (s : String)
  | description (d : String)
  | body (t : PathType)
  | content_type (ct : List String)
  | headers (hs : List Header)
  | example_ (e : String)
  | examples (es : List Example)
  | content (cs : List Content)
  | response (ty : InlineType)
  | unknown (name : String)
deriving DecidableEq

/-- The key-identifier dispatch of `impl Parse for ResponseTuple`: which key
names the parser's `match` recognises. -/
def recognizedResponseTupleKey (key : String) : Bool :=
  match key with
  | "status" | "description" | "body" | "content_type" | "headers"
  | "example" | "examples" | "content" | "response" => true
  | _ => false

/-- Whether an attribute item is one of the value-setting keys (those routed
through `as_value`). -/
def RespAttr.isValueSetting : RespAttr → Bool
  | .description _ | .body _ | .content_type _ | .headers _
  | .example_ _ | .examples _ | .content _ => true
  | _ => false

/-- One iteration of the parse loop of `impl Parse for ResponseTuple`:
dispatch on the key and update the tuple, propagating errors. -/
def applyResponseAttr (r : ResponseTuple) (a : RespAttr) : Except String ResponseTuple :=
  match a with
  | .status s => .ok { r with status_code := s }
  | .description d =>
    (r.as_value).map (fun r => r.update_value (fun v => { v with description := d }))
  | .body t =>
    (r.as_value).map (fun r => r.update_value (fun v => { v with response_type := some t }))
  | .content_type ct =>
    (r.as_value).map (fun r => r.update_value (fun v => { v with content_type := some ct }))
  | .headers hs =>
    (r.as_value).map (fun r => r.update_value (fun v => { v with headers := hs }))
  | .example_ e =>
    (r.as_value).map (fun r => r.update_value (fun v => { v with example_ := some e }))
  | .examples es =>
    (r.as_value).map (fun r => r.update_value (fun v => { v with examples := some es }))
  | .content cs =>
    (r.as_value).map (fun r => r.update_value (fun v => { v with content := cs }))
  | .response ty => r.set_ref_type ty
  | .unknown _ => .error EXPECTED_ATTRIBUTE_MESSAGE

/-- The post-loop normalisation of the parser: an absent inner becomes a
default `Value`. -/
def finalizeResponseTuple (r : ResponseTuple) : ResponseTuple :=
  if r.inner.isNone then { r with inner := some (.Value ResponseValue.default) } else r

/-- Embeds `impl Parse for ResponseTuple`: fold the attribute items over a
default tuple, then normalise an absent inner to a default `Value`. -/
def parseResponseTuple (attrs : List RespAttr) : Except String ResponseTuple :=
  (attrs.foldlM applyResponseAttr ResponseTuple.default).map finalizeResponseTuple

/-! ## Emitter (`impl ToTokens for ResponseTuple`) -/

/-- The schema token emitted inside `create_content`: a named schema `Ref`,
a `MediaTypeSchema` (external subsystem, carried by its inputs), or an
already-generated inline fragment. -/
inductive SchemaTok where
  | refSchema (refType : String)
  | mediaTypeSchema (ty : String) (is_inline : Bool)
  | inlineTok (schema : String)
deriving DecidableEq

/-- The `ContentBuilder` token group produced by the emitter's
`create_content` closure: schema plus optional example and named examples. -/
structure ContentTok where
  schema : SchemaTok
  example_ : Option String
  examples : Option (List Example)
deriving DecidableEq

/-- Embeds the `create_content` closure of `ResponseTuple::to_tokens`. -/
def create_content (path_type : PathType) (ex : Option String)
    (exs : Option (List Example)) : ContentTok :=
  let content_schema : SchemaTok :=
    match path_type with
    | .Ref ref_type => .refSchema ref_type
    | .MediaType ty is_inline => .mediaTypeSchema ty is_inline
    | .InlineSchema schema _ => .inlineTok schema
  { schema := content_schema, example_ := ex, examples := exs }

/-- One builder-call-shaped instruction of the emitted sequence (§4.5's
output surface), including the two `Ref`-inner forms. -/
inductive Instr where
  | toResponseInline (path : String)
  | refFromResponseName (path : String)
  | new
  | description (d : String)
  | content (content_type : String) (body : ContentTok)
  | header (name : String) (h : Header)
  | build
deriving DecidableEq

/-- Whether an instruction is a `.content(...)` call. -/
def Instr.isContent : Instr → Bool
  | .content _ _ => true
  | _ => false

/-- Embeds the `Value` branch of `ResponseTuple::to_tokens`, parameterised by
the external `get_default_content_type` of the type-description subsystem.
The sequence of list extensions mirrors the sequence of `tokens.extend`
statements in the source. -/
def ResponseValue.to_tokens (defaultCT : String → String) (val : ResponseValue) :
    List Instr :=
  let tokens : List Instr := [Instr.new, Instr.description val.description]
  let tokens := tokens ++
    (match val.response_type with
     | some response_type =>
       let content := create_content response_type val.example_ val.examples
       match val.content_type with
       | some content_types =>
         content_types.map (fun content_type => Instr.content content_type content)
       | none =>
         match response_type with
         | .Ref _ => [Instr.content "application/json" content]
         | .MediaType ty _ => [Instr.content (defaultCT ty) content]
         | .InlineSchema _ ty => [Instr.content (defaultCT ty) content]
     | none => [])
  let tokens := tokens ++
    val.content.map (fun c =>
      Instr.content c.content_type (create_content c.body c.example_ c.examples))
  let tokens := tokens ++ val.headers.map (fun h => Instr.header h.name h)
  tokens ++ [Instr.build]

/-- Embeds `impl ToTokens for ResponseTuple`: `none` models the panic of the
unconditional `self.inner.as_ref().unwrap()` when no inner is present. -/
def ResponseTuple.to_tokens (defaultCT : String → String) (r : ResponseTuple) :
    Option (List Instr) :=
  match r.inner with
  | none => none
  | some (.Ref res) =>
    some (if res.is_inline then [Instr.toResponseInline res.ty]
          else [Instr.refFromResponseName res.ty])
  | some (.Value val) => some (val.to_tokens defaultCT)

/-! ## Declaration-level occurrences and merge (`DeriveToResponseValue`) -/

/-- Embeds `DeriveToResponseValue`: one parsed declaration-level
`#[response(...)]` occurrence; `example_`/`examples` carry the key identifier
alongside the value, as in the source. -/
structure DeriveToResponseValue where
  content_type : Option (List String)
  headers : List Header
  description : String
  example_ : Option (String × String)
  examples : Option (List Example × String)
deriving DecidableEq

/-- Embeds `DeriveToResponseValue::default()`. -/
def DeriveToResponseValue.default : DeriveToResponseValue :=
  { content_type := none, headers := [], description := "", example_ := none, examples := none }

/-- Embeds `DeriveToResponseValue::merge_from`: replace a field only when the
incoming occurrence's field is set (non-`None` / non-empty). -/
def DeriveToResponseValue.merge_from (self other : DeriveToResponseValue) :
    DeriveToResponseValue :=
  let self :=
    if other.content_type.isSome then { self with content_type := other.content_type } else self
  let self :=
    if !other.headers.isEmpty then { self with headers := other.headers } else self
  let self :=
    if !other.description.isEmpty then { self with description := other.description } else self
  let self :=
    if other.example_.isSome then { self with example_ := other.example_ } else self
  let self :=
    if other.examples.isSome then { self with examples := other.examples } else self
  self

/-- Embeds `DeriveResponse::parse_derive_response_value` (and
`DeriveResponseValue::from_attributes`): left-to-right `reduce` of
`merge_from` over the parsed occurrences. -/
def parse_derive_response_value (occurrences : List DeriveToResponseValue) :
    Option DeriveToResponseValue :=
  match occurrences with
  | [] => none
  | o :: rest => some (rest.foldl DeriveToResponseValue.merge_from o)

/-! ## `DeriveResponse::create_response` and the `Enum` branch -/

/-- The `abort!` raised by `create_response` when an explicit content list
coexists with an enum-level example: offending key identifier, fixed message,
and the formatted help line. -/
structure CreateResponseError where
  ident : String
  message : String
  help : String
deriving DecidableEq

/-- The fixed message of the content/example conflict `abort!`. -/
def CONTENT_EXAMPLE_CONFLICT_MSG : String :=
  "Enum with `#[content]` attribute in variant cannot have enum level `example` or `examples` defined"

/-- Embeds `DeriveResponse::create_response`: merge the declaration-level
occurrences, reject an enum-level example alongside a non-empty content list,
and build the `Value` descriptor (the direct body type is dropped whenever
the content list is non-empty). -/
def create_response (declOccurrences : List DeriveToResponseValue)
    (description : String) (ty : Option PathType) (content : List Content) :
    Except CreateResponseError ResponseTuple :=
  match parse_derive_response_value declOccurrences with
  | some response_value =>
    if (!content.isEmpty && response_value.example_.isSome)
        || (!content.isEmpty && response_value.examples.isSome) then
      let ident :=
        match response_value.example_ with
        | some (_, i) => i
        | none =>
          match response_value.examples with
          | some (_, i) => i
          | none => ""
      .error { ident := ident
               message := CONTENT_EXAMPLE_CONFLICT_MSG
               help := "Try defining `" ++ ident ++ "` on the enum variant" }
    else
      .ok { status_code := ""
            inner := some (.Value
              { description :=
                  if response_value.description.isEmpty && !description.isEmpty then
                    description
                  else
                    response_value.description
                headers := response_value.headers
                example_ := response_value.example_.map (fun p => p.1)
                examples := response_value.examples.map (fun p => p.1)
                content_type := response_value.content_type
                response_type := if content.isEmpty then ty else none
                content := content }) }
  | none =>
    .ok { status_code := ""
          inner := some (.Value
            { ResponseValue.default with
              response_type := if content.isEmpty then ty else none
              content := content
              description := description }) }

/-- One variant of a tagged union as seen by the `Enum` branch of
`DeriveResponse::to_tokens`: the first field's type (when any), the field's
`#[content("...")]` tag, the field's `#[to_schema]` inline flag, and the
variant-level `#[response(...)]` occurrences. -/
structure EnumVariant where
  fieldTy : Option String
  contentTag : Option String
  is_inline : Bool
  responseOccurrences : List DeriveToResponseValue
deriving DecidableEq

/-- The per-variant step of the `Enum` branch: a variant contributes a
`Content` entry exactly when it has both a payload field and a `#[content]`
tag; the variant-level example/examples are moved into the entry. -/
def enumVariantContent (v : EnumVariant) : Option Content :=
  let variant_derive := parse_derive_response_value v.responseOccurrences
  let ex := (variant_derive.bind (fun d => d.example_)).map (fun p => p.1)
  let exs := (variant_derive.bind (fun d => d.examples)).map (fun p => p.1)
  match v.fieldTy, v.contentTag with
  | some ty, some content_type =>
    some { content_type := content_type
           body := PathType.MediaType ty v.is_inline
           example_ := ex
           examples := exs }
  | _, _ => none

/-- Embeds the `Enum` branch of `DeriveResponse::to_tokens`: collect the
content variants, pass `None` as the direct body type when strictly more than
one was collected and the whole-union inline schema otherwise, then call
`create_response`. -/
def deriveEnumToResponse (declOccurrences : List DeriveToResponseValue)
    (description : String) (enumSchema : String) (enumTy : String)
    (variants : List EnumVariant) : Except CreateResponseError ResponseTuple :=
  let content := variants.filterMap enumVariantContent
  create_response declOccurrences description
    (if content.length > 1 then none
     else some (PathType.InlineSchema enumSchema enumTy))
    content

/-! ## Status resolution (`impl Parse for ResponseStatus`) -/

/-- The kind of the next token at a `status = ...` value, as discriminated by
the parser's `lookahead1()`: integer literal, string literal, identifier path
(with its non-empty segment list), or any other token kind. -/
inductive StatusInput where
  | litInt (digits : Nat)
  | litStr (s : String)
  | identPath (segments : List String)
  | other
deriving DecidableEq

/-- Embeds `VALID_STATUS_RANGES`. -/
def VALID_STATUS_RANGES : List String := ["default", "1XX", "2XX", "3XX", "4XX", "5XX"]

/-- Modelled from the spec: the fixed compiled table `STATUS_CODES` of
`(numeric code, symbolic name)` pairs — "the standard HTTP status registry" —
whose defining module (`path/status.rs`) is not under `src/`. -/
def STATUS_CODES : List (Nat × String) :=
  [(100, "CONTINUE"), (101, "SWITCHING_PROTOCOLS"), (102, "PROCESSING"),
   (200, "OK"), (201, "CREATED"), (202, "ACCEPTED"),
   (203, "NON_AUTHORITATIVE_INFORMATION"), (204, "NO_CONTENT"),
   (205, "RESET_CONTENT"), (206, "PARTIAL_CONTENT"), (207, "MULTI_STATUS"),
   (208, "ALREADY_REPORTED"), (226, "IM_USED"),
   (300, "MULTIPLE_CHOICES"), (301, "MOVED_PERMANENTLY"), (302, "FOUND"),
   (303, "SEE_OTHER"), (304, "NOT_MODIFIED"), (305, "USE_PROXY"),
   (307, "TEMPORARY_REDIRECT"), (308, "PERMANENT_REDIRECT"),
   (400, "BAD_REQUEST"), (401, "UNAUTHORIZED"), (402, "PAYMENT_REQUIRED"),
   (403, "FORBIDDEN"), (404, "NOT_FOUND"), (405, "METHOD_NOT_ALLOWED"),
   (406, "NOT_ACCEPTABLE"), (407, "PROXY_AUTHENTICATION_REQUIRED"),
   (408, "REQUEST_TIMEOUT"), (409, "CONFLICT"), (410, "GONE"),
   (411, "LENGTH_REQUIRED"), (412, "PRECONDITION_FAILED"),
   (413, "PAYLOAD_TOO_LARGE"), (414, "URI_TOO_LONG"),
   (415, "UNSUPPORTED_MEDIA_TYPE"), (416, "RANGE_NOT_SATISFIABLE"),
   (417, "EXPECTATION_FAILED"), (418, "IM_A_TEAPOT"),
   (421, "MISDIRECTED_REQUEST"), (422, "UNPROCESSABLE_ENTITY"), (423, "LOCKED"),
   (424, "FAILED_DEPENDENCY"), (426, "UPGRADE_REQUIRED"),
   (428, "PRECONDITION_REQUIRED"), (429, "TOO_MANY_REQUESTS"),
   (431, "REQUEST_HEADER_FIELDS_TOO_LARGE"), (451, "UNAVAILABLE_FOR_LEGAL_REASONS"),
   (500, "INTERNAL_SERVER_ERROR"), (501, "NOT_IMPLEMENTED"), (502, "BAD_GATEWAY"),
   (503, "SERVICE_UNAVAILABLE"), (504, "GATEWAY_TIMEOUT"),
   (505, "HTTP_VERSION_NOT_SUPPORTED"), (506, "VARIANT_ALSO_NEGOTIATES"),
   (507, "INSUFFICIENT_STORAGE"), (508, "LOOP_DETECTED"), (510, "NOT_EXTENDED"),
   (511, "NETWORK_AUTHENTICATION_REQUIRED")]

/-- The error of `parse_lit_str_status_range` for a string outside the six
range tokens. -/
def invalidStatusRangeMsg : String :=
  "Invalid status range, expected one of: " ++ String.intercalate ", " VALID_STATUS_RANGES

/-- The error of `parse_http_status_code` for an unresolved identifier. -/
def noAssociatedStatusMsg (ident : String) : String :=
  "No associate item `" ++ ident ++ "` found for struct `http::StatusCode`"

/-- The `lookahead.error()` raised when the token is none of the three
literal kinds. -/
def statusLookaheadErrorMsg : String := "expected integer literal, string literal or identifier"

/-- Embeds `impl Parse for ResponseStatus`: lookahead-based dispatch over the
three status grammars with no fallback. An integer literal resolves to its
base-10 digit string; a string literal must be one of the six range tokens;
an identifier path resolves its last segment through `STATUS_CODES`. -/
def resolveStatus : StatusInput → Except String String
  | .litInt digits => .ok (Nat.repr digits)
  | .litStr s =>
    if !VALID_STATUS_RANGES.contains s then .error invalidStatusRangeMsg else .ok s
  | .identPath segments =>
    let last_segment := segments.getLastD ""
    match STATUS_CODES.find? (fun p => p.2 == last_segment) with
    | some p => .ok (Nat.repr p.1)
    | none => .error (noAssociatedStatusMsg last_segment)
  | .other => .error statusLookaheadErrorMsg

/-! ## Helper lemmas -/

/-- Evaluates `as_value` followed by the field write, by case on the current inner. -/
lemma as_value_update_eq (r : ResponseTuple) (f : ResponseValue → ResponseValue) :
    (r.as_value).map (fun s => s.update_value f) =
      match r.inner with
      | none => Except.ok { r with inner := some (.Value (f ResponseValue.default)) }
      | some (.Value v) => Except.ok { r with inner := some (.Value (f v)) }
      | some (.Ref _) => Except.error RESPONSE_INCOMPATIBLE_ATTRIBUTES_MSG := by
  rcases r with ⟨sc, inner⟩
  cases inner with
  | none => simp [ResponseTuple.as_value, ResponseTuple.update_value, Except.map]
  | some i =>
    cases i with
    | Value v => simp [ResponseTuple.as_value, ResponseTuple.update_value, Except.map]
    | Ref t => simp [ResponseTuple.as_value, ResponseTuple.update_value, Except.map]

/-- A value-setting attribute applied to a tuple whose inner is a `Ref` is the
fixed conflict error. -/
lemma applyResponseAttr_ref_error (r : ResponseTuple) (t : InlineType) (a : RespAttr)
    (h : r.inner = some (.Ref t)) (ha : a.isValueSetting = true) :
    applyResponseAttr r a = .error RESPONSE_INCOMPATIBLE_ATTRIBUTES_MSG := by
  cases a <;> simp_all [RespAttr.isValueSetting] <;>
    (rw [applyResponseAttr, as_value_update_eq, h])

/-- A value-setting attribute applied to a tuple whose inner is a `Value`
succeeds and keeps a `Value` inner. -/
lemma applyResponseAttr_value_ok (r : ResponseTuple) (v : ResponseValue) (a : RespAttr)
    (h : r.inner = some (.Value v)) (ha : a.isValueSetting = true) :
    ∃ v', applyResponseAttr r a = .ok { r with inner := some (.Value v') } := by
  cases a <;> simp_all [RespAttr.isValueSetting] <;>
    (rw [applyResponseAttr, as_value_update_eq, h]; exact ⟨_, rfl⟩)

/-! ## Claims -/

/-- Claim C1: Setting `response` once a `Value` inner is established, or any
value-setting key once a `Ref` inner is established, fails with the fixed
conflict message; and whenever an attribute application succeeds, the inner's
kind (`Value` vs `Ref`) is never silently switched. -/
theorem response_value_conflict_and_kind_stability :
    (∀ (r : ResponseTuple) (v : ResponseValue) (ty : InlineType),
      r.inner = some (.Value v) →
      applyResponseAttr r (.response ty) = .error RESPONSE_INCOMPATIBLE_ATTRIBUTES_MSG)
    ∧ (∀ (r : ResponseTuple) (t : InlineType) (a : RespAttr),
      r.inner = some (.Ref t) → a.isValueSetting = true →
      applyResponseAttr r a = .error RESPONSE_INCOMPATIBLE_ATTRIBUTES_MSG)
    ∧ (∀ (r r' : ResponseTuple) (a : RespAttr) (i i' : ResponseTupleInner),
      applyResponseAttr r a = .ok r' → r.inner = some i → r'.inner = some i' →
      i.kind = i'.kind) := by
  refine ⟨?_, ?_, ?_⟩
  · intro r v ty h
    simp [applyResponseAttr, ResponseTuple.set_ref_type, h]
  · intro r t a h ha
    exact applyResponseAttr_ref_error r t a h ha
  · intro r r' a i i' hok hi hi'
    cases a with
    | status s =>
      simp only [applyResponseAttr, Except.ok.injEq] at hok
      subst hok
      simp only [hi] at hi'
      cases hi'
      rfl
    | response ty =>
      cases i with
      | Value v =>
        rw [applyResponseAttr, ResponseTuple.set_ref_type] at hok
        rw [hi] at hok
        exact absurd hok (by simp)
      | Ref t =>
        rw [applyResponseAttr, ResponseTuple.set_ref_type] at hok
        rw [hi] at hok
        simp only [Except.ok.injEq] at hok
        subst hok
        simp only at hi'
        cases hi'
        rfl
    | unknown n =>
      exact absurd hok (by simp [applyResponseAttr])
    | description d => ?_
    | body t => ?_
    | content_type ct => ?_
    | headers hs => ?_
    | example_ e => ?_
    | examples es => ?_
    | content cs => ?_
    all_goals {
      simp only [applyResponseAttr] at hok
      rw [as_value_update_eq] at hok
      cases i with
      | Ref t =>
        rw [hi] at hok
        exact absurd hok (by simp)
      | Value v =>
        rw [hi] at hok
        simp only [Except.ok.injEq] at hok
        subst hok
        simp only at hi'
        cases hi'
        rfl
    }

/-- Witness for C1: the conflict error fires concretely in both orders, and a
successful value write keeps the kind at a concrete tuple. -/
theorem response_value_conflict_witness :
    applyResponseAttr { status_code := "", inner := some (.Value ResponseValue.default) }
        (.response { ty := "R", is_inline := false })
      = .error RESPONSE_INCOMPATIBLE_ATTRIBUTES_MSG
    ∧ applyResponseAttr { status_code := "", inner := some (.Ref { ty := "R", is_inline := false }) }
        (.description "d")
      = .error RESPONSE_INCOMPATIBLE_ATTRIBUTES_MSG
    ∧ (ResponseTupleInner.Value ResponseValue.default).kind
        = (ResponseTupleInner.Value { ResponseValue.default with description := "d" }).kind := by
  refine ⟨?_, ?_, ?_⟩
  · exact response_value_conflict_and_kind_stability.1
      { status_code := "", inner := some (.Value ResponseValue.default) }
      ResponseValue.default { ty := "R", is_inline := false } rfl
  · exact response_value_conflict_and_kind_stability.2.1
      { status_code := "", inner := some (.Ref { ty := "R", is_inline := false }) }
      { ty := "R", is_inline := false } (.description "d") rfl rfl
  · exact response_value_conflict_and_kind_stability.2.2
      { status_code := "", inner := some (.Value ResponseValue.default) }
      { status_code := "", inner := some (.Value { ResponseValue.default with description := "d" }) }
      (.description "d") _ _ (by decide) rfl rfl

/-- Claim C10: Setting `response` when the inner is already a `Ref` is not an
error: the later reference silently replaces the earlier one. -/
theorem ref_overwrite_last_wins :
    ∀ (r : ResponseTuple) (old ty : InlineType),
      r.inner = some (.Ref old) →
      applyResponseAttr r (.response ty) = .ok { r with inner := some (.Ref ty) } := by
  intro r old ty h
  rw [applyResponseAttr, ResponseTuple.set_ref_type, h]

/-- Witness for C10: two consecutive `response` keys parse successfully and
the last one wins. -/
theorem ref_overwrite_last_wins_witness :
    applyResponseAttr { status_code := "", inner := some (.Ref { ty := "R1", is_inline := false }) }
        (.response { ty := "R2", is_inline := true })
      = .ok { status_code := "", inner := some (.Ref { ty := "R2", is_inline := true }) }
    ∧ parseResponseTuple [.response { ty := "R1", is_inline := false },
                          .response { ty := "R2", is_inline := true }]
      = .ok { status_code := "", inner := some (.Ref { ty := "R2", is_inline := true }) } := by
  constructor
  · exact ref_overwrite_last_wins
      { status_code := "", inner := some (.Ref { ty := "R1", is_inline := false }) }
      { ty := "R1", is_inline := false } { ty := "R2", is_inline := true } rfl
  · decide

/-- Claim C9: Whenever `ResponseTuple` parsing succeeds the inner is `Some` (so
the emitter's unconditional unwrap cannot observe `None` on a parser-produced
tuple), and the empty attribute tuple yields a default `Value`. -/
theorem parse_success_inner_isSome :
    (∀ (attrs : List RespAttr) (r : ResponseTuple) (defaultCT : String → String),
      parseResponseTuple attrs = .ok r →
      r.inner.isSome = true ∧ (r.to_tokens defaultCT).isSome = true)
    ∧ parseResponseTuple []
      = .ok { status_code := "", inner := some (.Value ResponseValue.default) } := by
  constructor
  · intro attrs r defaultCT h
    rw [parseResponseTuple] at h
    cases hf : attrs.foldlM applyResponseAttr ResponseTuple.default with
    | error e => rw [hf] at h; exact absurd h (by simp [Except.map])
    | ok r0 =>
      rw [hf] at h
      simp only [Except.map, Except.ok.injEq] at h
      subst h
      have hsome : (finalizeResponseTuple r0).inner.isSome = true := by
        rw [finalizeResponseTuple]
        cases h0 : r0.inner <;> simp [h0]
      refine ⟨hsome, ?_⟩
      rw [ResponseTuple.to_tokens]
      cases h1 : (finalizeResponseTuple r0).inner with
      | none => rw [h1] at hsome; exact absurd hsome (by simp)
      | some i => cases i <;> simp
  · decide

/-- Witness for C9: a parsed non-empty tuple has a `Some` inner and emits. -/
theorem parse_success_inner_isSome_witness :
    parseResponseTuple [.status "200", .description "ok"]
      = .ok { status_code := "200",
              inner := some (.Value { ResponseValue.default with description := "ok" }) }
    ∧ ({ status_code := "200",
         inner := some (.Value { ResponseValue.default with description := "ok" }) }
        : ResponseTuple).inner.isSome = true := by
  refine ⟨by decide, ?_⟩
  exact (parse_success_inner_isSome.1 [.status "200", .description "ok"] _
    (fun _ => "application/json") (by decide)).1

/-- The comma-separated key names enumerated by `EXPECTED_ATTRIBUTE_MESSAGE`. -/
def messageListedKeys : List String :=
  ["status", "description", "body", "content_type", "headers", "example", "examples",
   "response"]

/-- The key names the parser's `match` actually recognises (its non-default
arms), in source order. -/
def responseTupleValidKeys : List String :=
  ["status", "description", "body", "content_type", "headers", "example", "examples",
   "content", "response"]

/-- Counterexample for C8: The unknown-key error message does not name the full
valid-key set: `content` is a recognised key of the grammar, yet the fixed
message enumerates only the other eight keys. -/
theorem unknown_key_message_omits_content_cex :
    applyResponseAttr ResponseTuple.default (.unknown "foo")
      = .error EXPECTED_ATTRIBUTE_MESSAGE
    ∧ EXPECTED_ATTRIBUTE_MESSAGE
      = "unexpected attribute, expected any of: " ++ String.intercalate ", " messageListedKeys
    ∧ recognizedResponseTupleKey "content" = true
    ∧ "content" ∉ messageListedKeys
    ∧ messageListedKeys ≠ responseTupleValidKeys := by
  refine ⟨rfl, by decide, rfl, by decide, by decide⟩

/-- Claim C8 (amended): An unknown key always fails with the fixed message, and
that message enumerates the valid keys of the grammar except `content`: the
enumerated list is exactly the recognised-key list with `content` removed. -/
theorem unknown_key_error_message :
    (∀ (r : ResponseTuple) (name : String),
      applyResponseAttr r (.unknown name) = .error EXPECTED_ATTRIBUTE_MESSAGE)
    ∧ EXPECTED_ATTRIBUTE_MESSAGE
      = "unexpected attribute, expected any of: " ++ String.intercalate ", " messageListedKeys
    ∧ (∀ k, recognizedResponseTupleKey k = true ↔ k ∈ responseTupleValidKeys)
    ∧ messageListedKeys = responseTupleValidKeys.filter (fun k => k != "content") := by
  refine ⟨fun r name => rfl, by decide, ?_, by decide⟩
  intro k
  unfold recognizedResponseTupleKey
  split <;> simp_all [responseTupleValidKeys]

/-! ## C5: status resolution -/

/-- Each table entry resolves to itself: its name is found at exactly that
entry (the table's symbolic names are distinct). -/
lemma status_codes_find_self :
    ∀ e ∈ STATUS_CODES, STATUS_CODES.find? (fun p => p.2 == e.2) = some e := by
  decide

/-- The last element of `pre ++ [name]` is `name`. -/
lemma getLastD_append_singleton {α : Type} (l : List α) (a d : α) :
    (l ++ [a]).getLastD d = a := by
  cases l with
  | nil => rfl
  | cons x xs => simp [List.getLastD]

/-- Claim C5: Status resolution dispatches on the token kind with no fallback:
an integer literal is its base-10 string; a string literal succeeds exactly on
the six range tokens and otherwise errors enumerating the valid set; an
identifier path resolves its final segment case-sensitively through the
`STATUS_CODES` table (erroring with the unresolved identifier's name when no
entry matches); any other token kind is a grammar-mismatch error. -/
theorem status_resolution_dispatch :
    (∀ digits : Nat, resolveStatus (.litInt digits) = .ok (Nat.repr digits))
    ∧ (∀ s, s ∈ VALID_STATUS_RANGES → resolveStatus (.litStr s) = .ok s)
    ∧ (∀ s, s ∉ VALID_STATUS_RANGES →
        resolveStatus (.litStr s) = .error invalidStatusRangeMsg)
    ∧ (∀ (pre : List String) (name : String) (code : Nat),
        (code, name) ∈ STATUS_CODES →
        resolveStatus (.identPath (pre ++ [name])) = .ok (Nat.repr code))
    ∧ (∀ (pre : List String) (name : String),
        (∀ e ∈ STATUS_CODES, e.2 ≠ name) →
        resolveStatus (.identPath (pre ++ [name])) = .error (noAssociatedStatusMsg name))
    ∧ resolveStatus .other = .error statusLookaheadErrorMsg := by
  refine ⟨fun digits => rfl, ?_, ?_, ?_, ?_, rfl⟩
  · intro s hs
    simp [resolveStatus, hs]
  · intro s hs
    simp [resolveStatus, hs]
  · intro pre name code hmem
    have hfind := status_codes_find_self (code, name) hmem
    simp only [resolveStatus, getLastD_append_singleton]
    rw [hfind]
  · intro pre name hnone
    have hfind : STATUS_CODES.find? (fun p => p.2 == name) = none := by
      rw [List.find?_eq_none]
      intro x hx
      simpa using hnone x hx
    simp only [resolveStatus, getLastD_append_singleton]
    rw [hfind]

/-- Witness for C5: the four dispatch outcomes at concrete inputs, including
the case-sensitivity of the symbolic lookup. -/
theorem status_resolution_dispatch_witness :
    resolveStatus (.litInt 200) = .ok (Nat.repr 200)
    ∧ resolveStatus (.litStr "5XX") = .ok "5XX"
    ∧ resolveStatus (.litStr "6XX") = .error invalidStatusRangeMsg
    ∧ resolveStatus (.identPath ["StatusCode", "NOT_FOUND"]) = .ok (Nat.repr 404)
    ∧ resolveStatus (.identPath ["StatusCode", "not_found"])
        = .error (noAssociatedStatusMsg "not_found")
    ∧ resolveStatus .other = .error statusLookaheadErrorMsg := by
  refine ⟨status_resolution_dispatch.1 200,
    status_resolution_dispatch.2.1 "5XX" (by decide),
    status_resolution_dispatch.2.2.1 "6XX" (by decide),
    status_resolution_dispatch.2.2.2.1 ["StatusCode"] "NOT_FOUND" 404 (by decide),
    status_resolution_dispatch.2.2.2.2.1 ["StatusCode"] "not_found" (by decide),
    status_resolution_dispatch.2.2.2.2.2⟩

/-! ## C4: occurrence merge -/

/-- Field view of `merge_from`: `content_type` is replaced only when the
incoming one is set. -/
lemma merge_from_content_type (a b : DeriveToResponseValue) :
    (a.merge_from b).content_type
      = if b.content_type.isSome then b.content_type else a.content_type := by
  unfold DeriveToResponseValue.merge_from
  split_ifs <;> rfl

/-- Field view of `merge_from`: `headers` is replaced only when the incoming
list is non-empty. -/
lemma merge_from_headers (a b : DeriveToResponseValue) :
    (a.merge_from b).headers = if b.headers.isEmpty then a.headers else b.headers := by
  unfold DeriveToResponseValue.merge_from
  split_ifs <;> simp_all

/-- Field view of `merge_from`: `description` is replaced only when the
incoming string is non-empty. -/
lemma merge_from_description (a b : DeriveToResponseValue) :
    (a.merge_from b).description
      = if b.description.isEmpty then a.description else b.description := by
  unfold DeriveToResponseValue.merge_from
  split_ifs <;> simp_all

/-- Field view of `merge_from`: `example` is replaced only when the incoming
one is set. -/
lemma merge_from_example (a b : DeriveToResponseValue) :
    (a.merge_from b).example_
      = if b.example_.isSome then b.example_ else a.example_ := by
  unfold DeriveToResponseValue.merge_from
  split_ifs <;> rfl

/-- Field view of `merge_from`: `examples` is replaced only when the incoming
one is set. -/
lemma merge_from_examples (a b : DeriveToResponseValue) :
    (a.merge_from b).examples
      = if b.examples.isSome then b.examples else a.examples := by
  unfold DeriveToResponseValue.merge_from
  split_ifs <;> rfl

/-- An occurrence that sets only `description`. -/
def descriptionOnlyOccurrence (d : String) : DeriveToResponseValue :=
  { DeriveToResponseValue.default with description := d }

/-- Claim C4: The declaration-level merge is a left-to-right fold with
last-non-empty-wins semantics: an unset/empty incoming field never overrides a
previously set value, and when occurrence `B` sets only `description`, merging
`A` then `B` agrees with merging `B` then `A` on every field except
`description`, which ends as `B`'s value in the `A`-then-`B` order. -/
theorem merge_from_last_non_empty_wins :
    (∀ (o : DeriveToResponseValue) (rest : List DeriveToResponseValue),
      parse_derive_response_value (o :: rest)
        = some (rest.foldl DeriveToResponseValue.merge_from o))
    ∧ (∀ a b : DeriveToResponseValue,
      (b.content_type = none → (a.merge_from b).content_type = a.content_type)
      ∧ (b.headers = [] → (a.merge_from b).headers = a.headers)
      ∧ (b.description = "" → (a.merge_from b).description = a.description)
      ∧ (b.example_ = none → (a.merge_from b).example_ = a.example_)
      ∧ (b.examples = none → (a.merge_from b).examples = a.examples))
    ∧ (∀ (a : DeriveToResponseValue) (d : String), d ≠ "" →
      (a.merge_from (descriptionOnlyOccurrence d)).description = d
      ∧ (a.merge_from (descriptionOnlyOccurrence d)).content_type
          = ((descriptionOnlyOccurrence d).merge_from a).content_type
      ∧ (a.merge_from (descriptionOnlyOccurrence d)).headers
          = ((descriptionOnlyOccurrence d).merge_from a).headers
      ∧ (a.merge_from (descriptionOnlyOccurrence d)).example_
          = ((descriptionOnlyOccurrence d).merge_from a).example_
      ∧ (a.merge_from (descriptionOnlyOccurrence d)).examples
          = ((descriptionOnlyOccurrence d).merge_from a).examples) := by
  refine ⟨fun o rest => rfl, ?_, ?_⟩
  · intro a b
    refine ⟨fun h => ?_, fun h => ?_, fun h => ?_, fun h => ?_, fun h => ?_⟩
    · rw [merge_from_content_type, h]; rfl
    · rw [merge_from_headers, h]; rfl
    · rw [merge_from_description, h]; rfl
    · rw [merge_from_example, h]; rfl
    · rw [merge_from_examples, h]; rfl
  · intro a d hd
    have hde : d.isEmpty = false := by
      cases he : d.isEmpty
      · rfl
      · exact absurd ((String.isEmpty_iff d).mp he) hd
    refine ⟨?_, ?_, ?_, ?_, ?_⟩
    · rw [merge_from_description]
      simp [descriptionOnlyOccurrence, DeriveToResponseValue.default, hde]
    · rw [merge_from_content_type, merge_from_content_type]
      cases h : a.content_type <;>
        simp [descriptionOnlyOccurrence, DeriveToResponseValue.default, h]
    · rw [merge_from_headers, merge_from_headers]
      cases h : a.headers <;>
        simp [descriptionOnlyOccurrence, DeriveToResponseValue.default, h]
    · rw [merge_from_example, merge_from_example]
      cases h : a.example_ <;>
        simp [descriptionOnlyOccurrence, DeriveToResponseValue.default, h]
    · rw [merge_from_examples, merge_from_examples]
      cases h : a.examples <;>
        simp [descriptionOnlyOccurrence, DeriveToResponseValue.default, h]

/-- Witness for C4: a concrete `A` (setting every field) merged with a `B`
that sets only `description`, in both orders. -/
theorem merge_from_last_non_empty_wins_witness :
    parse_derive_response_value [descriptionOnlyOccurrence "x"]
      = some (List.foldl DeriveToResponseValue.merge_from (descriptionOnlyOccurrence "x") [])
    ∧ (({ content_type := some ["text/plain"],
          headers := [{ name := "h", value_type := none, description := none }],
          description := "a", example_ := some ("1", "example"),
          examples := none } : DeriveToResponseValue).merge_from
        (descriptionOnlyOccurrence "b")).description = "b"
    ∧ (({ content_type := some ["text/plain"],
          headers := [{ name := "h", value_type := none, description := none }],
          description := "a", example_ := some ("1", "example"),
          examples := none } : DeriveToResponseValue).merge_from
        (descriptionOnlyOccurrence "b")).content_type
      = ((descriptionOnlyOccurrence "b").merge_from
          { content_type := some ["text/plain"],
            headers := [{ name := "h", value_type := none, description := none }],
            description := "a", example_ := some ("1", "example"),
            examples := none }).content_type := by
  refine ⟨merge_from_last_non_empty_wins.1 (descriptionOnlyOccurrence "x") [], ?_, ?_⟩
  · exact (merge_from_last_non_empty_wins.2.2
      { content_type := some ["text/plain"],
        headers := [{ name := "h", value_type := none, description := none }],
        description := "a", example_ := some ("1", "example"), examples := none }
      "b" (by decide)).1
  · exact (merge_from_last_non_empty_wins.2.2
      { content_type := some ["text/plain"],
        headers := [{ name := "h", value_type := none, description := none }],
        description := "a", example_ := some ("1", "example"), examples := none }
      "b" (by decide)).2.1

/-! ## C7 / C2 / C3: `create_response` and the enum branch -/

/-- Inversion of a successful `create_response`: the result always carries a
`Value` inner whose direct body type is the given one only when the content
list is empty, and whose content list is the given one. -/
lemma create_response_ok_value (occs : List DeriveToResponseValue) (desc : String)
    (ty : Option PathType) (content : List Content) (r : ResponseTuple)
    (h : create_response occs desc ty content = .ok r) :
    ∃ v, r.inner = some (.Value v)
      ∧ v.response_type = (if content.isEmpty then ty else none)
      ∧ v.content = content := by
  unfold create_response at h
  split at h
  · split at h
    · exact absurd h (by simp)
    · simp only [Except.ok.injEq] at h
      subst h
      exact ⟨_, rfl, rfl, rfl⟩
  · simp only [Except.ok.injEq] at h
    subst h
    exact ⟨_, rfl, rfl, rfl⟩

/-- Claim C7: With a merged declaration-level occurrence present, a non-empty
explicit content list together with an enum-level `example` (or `examples`)
makes construction fail with an error naming the offending key identifier and
suggesting to define it on the enum variant; with an empty content list or
neither example field set, construction succeeds. -/
theorem content_example_conflict_error :
    ∀ (occs : List DeriveToResponseValue) (rv : DeriveToResponseValue)
      (desc : String) (ty : Option PathType) (content : List Content),
      parse_derive_response_value occs = some rv →
      (∀ e i, content ≠ [] → rv.example_ = some (e, i) →
        create_response occs desc ty content
          = .error { ident := i, message := CONTENT_EXAMPLE_CONFLICT_MSG,
                     help := "Try defining `" ++ i ++ "` on the enum variant" })
      ∧ (∀ es i, content ≠ [] → rv.example_ = none → rv.examples = some (es, i) →
        create_response occs desc ty content
          = .error { ident := i, message := CONTENT_EXAMPLE_CONFLICT_MSG,
                     help := "Try defining `" ++ i ++ "` on the enum variant" })
      ∧ ((content = [] ∨ (rv.example_ = none ∧ rv.examples = none)) →
        (create_response occs desc ty content).isOk = true) := by
  intro occs rv desc ty content hp
  refine ⟨?_, ?_, ?_⟩
  · intro e i hne hex
    have hce : content.isEmpty = false := by
      cases content with
      | nil => exact absurd rfl hne
      | cons c cs => rfl
    unfold create_response
    rw [hp]
    simp [hce, hex]
  · intro es i hne hex hexs
    have hce : content.isEmpty = false := by
      cases content with
      | nil => exact absurd rfl hne
      | cons c cs => rfl
    unfold create_response
    rw [hp]
    simp [hce, hex, hexs]
  · intro h
    unfold create_response
    rw [hp]
    rcases h with h | ⟨hex, hexs⟩
    · subst h
      simp [Except.isOk, Except.toBool]
    · simp [hex, hexs, Except.isOk, Except.toBool]

/-- Witness for C7: a concrete conflicting occurrence fails with the expected
identifier and suggestion; dropping the content list succeeds. -/
theorem content_example_conflict_error_witness :
    create_response
        [{ content_type := none, headers := [], description := "",
           example_ := some ("1", "example"), examples := none }] "" none
        [{ content_type := "text/plain", body := PathType.MediaType "T" false,
           example_ := none, examples := none }]
      = .error { ident := "example", message := CONTENT_EXAMPLE_CONFLICT_MSG,
                 help := "Try defining `example` on the enum variant" }
    ∧ (create_response
        [{ content_type := none, headers := [], description := "",
           example_ := some ("1", "example"), examples := none }] "" none []).isOk = true := by
  constructor
  · exact (content_example_conflict_error
      [{ content_type := none, headers := [], description := "",
         example_ := some ("1", "example"), examples := none }]
      { content_type := none, headers := [], description := "",
        example_ := some ("1", "example"), examples := none }
      "" none
      [{ content_type := "text/plain", body := PathType.MediaType "T" false,
         example_ := none, examples := none }] rfl).1 "1" "example" (by decide) rfl
  · exact (content_example_conflict_error
      [{ content_type := none, headers := [], description := "",
         example_ := some ("1", "example"), examples := none }]
      { content_type := none, headers := [], description := "",
        example_ := some ("1", "example"), examples := none }
      "" none [] rfl).2.2 (Or.inl rfl)

/-- Counterexample for C2: Three variants with exactly one tagged payload: the
content-variant count is 1, yet the constructed descriptor's direct body type
is `none` — not the inline schema generated from the whole union — because
`create_response` drops the body type whenever the content list is non-empty. -/
theorem single_content_variant_drops_inline_schema_cex :
    (([ { fieldTy := none, contentTag := none, is_inline := false, responseOccurrences := [] },
        { fieldTy := some "String", contentTag := some "text/plain", is_inline := false,
          responseOccurrences := [] },
        { fieldTy := none, contentTag := none, is_inline := false, responseOccurrences := [] } ]
      : List EnumVariant).filterMap enumVariantContent).length = 1
    ∧ deriveEnumToResponse [] "" "EnumSchema" "E"
        [ { fieldTy := none, contentTag := none, is_inline := false, responseOccurrences := [] },
          { fieldTy := some "String", contentTag := some "text/plain", is_inline := false,
            responseOccurrences := [] },
          { fieldTy := none, contentTag := none, is_inline := false, responseOccurrences := [] } ]
      = .ok { status_code := "",
              inner := some (.Value { ResponseValue.default with
                content := [{ content_type := "text/plain",
                              body := PathType.MediaType "String" false,
                              example_ := none, examples := none }] }) }
    ∧ ({ ResponseValue.default with
          content := [{ content_type := "text/plain",
                        body := PathType.MediaType "String" false,
                        example_ := none, examples := none }] } : ResponseValue).response_type
      = none
    ∧ (none : Option PathType) ≠ some (PathType.InlineSchema "EnumSchema" "E") := by
  refine ⟨by decide, by decide, rfl, by decide⟩

/-- Claim C2 (amended): In the enum branch, the constructed descriptor's direct
body type is the inline schema generated from the whole union exactly when
zero content variants are collected; with one or more content variants the
direct body type is absent and the response is described through the
content-variant list alone. -/
theorem enum_body_inline_iff_no_content_variants :
    ∀ (occs : List DeriveToResponseValue) (desc schema tyName : String)
      (variants : List EnumVariant) (r : ResponseTuple),
      deriveEnumToResponse occs desc schema tyName variants = .ok r →
      ∃ v, r.inner = some (.Value v)
        ∧ v.content = variants.filterMap enumVariantContent
        ∧ v.response_type
          = (if variants.filterMap enumVariantContent = [] then
               some (PathType.InlineSchema schema tyName)
             else none) := by
  intro occs desc schema tyName variants r h
  simp only [deriveEnumToResponse] at h
  obtain ⟨v, hv, hrt, hc⟩ := create_response_ok_value _ _ _ _ _ h
  refine ⟨v, hv, hc, ?_⟩
  rw [hrt]
  cases hcv : variants.filterMap enumVariantContent with
  | nil => simp [hcv]
  | cons c cs => simp [hcv]

/-- Witness for C2 (amended): with zero tagged variants the body is the whole-union
inline schema. -/
theorem enum_body_inline_iff_no_content_variants_witness :
    deriveEnumToResponse [] "" "S" "E"
        [{ fieldTy := none, contentTag := none, is_inline := false, responseOccurrences := [] }]
      = .ok { status_code := "",
              inner := some (.Value { ResponseValue.default with
                response_type := some (PathType.InlineSchema "S" "E") }) }
    ∧ ({ ResponseValue.default with
          response_type := some (PathType.InlineSchema "S" "E") } : ResponseValue).response_type
      = (if ([{ fieldTy := none, contentTag := none, is_inline := false,
                responseOccurrences := [] }] : List EnumVariant).filterMap enumVariantContent
            = [] then some (PathType.InlineSchema "S" "E") else none) := by
  refine ⟨by decide, ?_⟩
  obtain ⟨v, hv, _, hrt⟩ := enum_body_inline_iff_no_content_variants [] "" "S" "E"
    [{ fieldTy := none, contentTag := none, is_inline := false, responseOccurrences := [] }]
    { status_code := "",
      inner := some (.Value { ResponseValue.default with
        response_type := some (PathType.InlineSchema "S" "E") }) } (by decide)
  have hv' : ResponseTupleInner.Value
      { ResponseValue.default with response_type := some (PathType.InlineSchema "S" "E") }
      = .Value v := Option.some.inj hv
  cases hv'
  exact hrt

/-! ## C3 / C6: emitter ordering and content precedence -/

/-- The primary-body block of the `Value` emission: the `.content(...)`
call(s) generated from `response_type` (none when no direct body is set). -/
def primaryContentInstrs (defaultCT : String → String) (val : ResponseValue) :
    List Instr :=
  match val.response_type with
  | some response_type =>
    let content := create_content response_type val.example_ val.examples
    match val.content_type with
    | some content_types =>
      content_types.map (fun content_type => Instr.content content_type content)
    | none =>
      match response_type with
      | .Ref _ => [Instr.content "application/json" content]
      | .MediaType ty _ => [Instr.content (defaultCT ty) content]
      | .InlineSchema _ ty => [Instr.content (defaultCT ty) content]
  | none => []

/-- The `Value` emission is the five ordered blocks in sequence. -/
lemma to_tokens_blocks (defaultCT : String → String) (val : ResponseValue) :
    val.to_tokens defaultCT
      = [Instr.new, Instr.description val.description]
        ++ primaryContentInstrs defaultCT val
        ++ val.content.map (fun c =>
             Instr.content c.content_type (create_content c.body c.example_ c.examples))
        ++ val.headers.map (fun h => Instr.header h.name h)
        ++ [Instr.build] := by
  unfold ResponseValue.to_tokens primaryContentInstrs
  simp [List.append_assoc]

/-- Explicit content-list instructions survive an `isContent` filter. -/
lemma filter_isContent_content_map (l : List Content) :
    (l.map (fun c =>
      Instr.content c.content_type (create_content c.body c.example_ c.examples))).filter
        Instr.isContent
      = l.map (fun c =>
          Instr.content c.content_type (create_content c.body c.example_ c.examples)) := by
  induction l with
  | nil => rfl
  | cons c cs ih => simp [Instr.isContent, ih]

/-- Header instructions are dropped by an `isContent` filter. -/
lemma filter_isContent_header_map (l : List Header) :
    (l.map (fun h => Instr.header h.name h)).filter Instr.isContent = [] := by
  induction l with
  | nil => rfl
  | cons h hs ih => simp [Instr.isContent, ih]

/-- With no direct body set, the `.content(...)` calls of the emission are
exactly the explicit content-list ones. -/
lemma to_tokens_filter_content_of_no_body (defaultCT : String → String)
    (val : ResponseValue) (h : val.response_type = none) :
    (val.to_tokens defaultCT).filter Instr.isContent
      = val.content.map (fun c =>
          Instr.content c.content_type (create_content c.body c.example_ c.examples)) := by
  rw [to_tokens_blocks]
  have hp : primaryContentInstrs defaultCT val = [] := by
    unfold primaryContentInstrs
    rw [h]
  rw [hp]
  simp [List.filter_append, Instr.isContent, filter_isContent_content_map,
    filter_isContent_header_map]

/-- Counterexample for C3: A `Value` carrying both a direct body
(`response_type = Ref "Foo"`) and a non-empty explicit content list: the
emitted sequence contains a `.content(...)` call for the direct body in
addition to the content-list entry, so the content calls are not only those of
the explicit list. -/
theorem emitter_direct_body_with_content_list_cex :
    ((ResponseValue.to_tokens (fun _ => "application/json")
      { description := "", response_type := some (.Ref "Foo"), content_type := none,
        headers := [], example_ := none, examples := none,
        content := [{ content_type := "text/plain", body := PathType.MediaType "Bar" false,
                      example_ := none, examples := none }] }).filter Instr.isContent
      = [Instr.content "application/json" (create_content (.Ref "Foo") none none),
         Instr.content "text/plain" (create_content (.MediaType "Bar" false) none none)])
    ∧ ((ResponseValue.to_tokens (fun _ => "application/json")
      { description := "", response_type := some (.Ref "Foo"), content_type := none,
        headers := [], example_ := none, examples := none,
        content := [{ content_type := "text/plain", body := PathType.MediaType "Bar" false,
                      example_ := none, examples := none }] }).filter Instr.isContent
      ≠ [Instr.content "text/plain" (create_content (.MediaType "Bar" false) none none)]) := by
  refine ⟨by decide, by decide⟩

/-- Claim C3 (amended): The emitter itself emits the direct-body `.content(...)`
whenever `response_type` is set; the content-list priority is established at
construction: any descriptor built by `create_response` with a non-empty
content list carries no direct body, so its emission contains `.content(...)`
calls only for the explicit content-list entries. -/
theorem create_response_content_list_priority :
    ∀ (occs : List DeriveToResponseValue) (desc : String) (ty : Option PathType)
      (content : List Content) (r : ResponseTuple) (v : ResponseValue)
      (defaultCT : String → String),
      content ≠ [] →
      create_response occs desc ty content = .ok r →
      r.inner = some (.Value v) →
      v.response_type = none
      ∧ (v.to_tokens defaultCT).filter Instr.isContent
        = content.map (fun c =>
            Instr.content c.content_type (create_content c.body c.example_ c.examples)) := by
  intro occs desc ty content r v defaultCT hne hok hv
  obtain ⟨v', hv', hrt, hc⟩ := create_response_ok_value _ _ _ _ _ hok
  rw [hv] at hv'
  have hvv : v = v' := by
    have := Option.some.inj hv'
    cases this
    rfl
  subst hvv
  have hce : content.isEmpty = false := by
    cases content with
    | nil => exact absurd rfl hne
    | cons c cs => rfl
  rw [hce] at hrt
  simp only [Bool.false_eq_true, if_false] at hrt
  refine ⟨hrt, ?_⟩
  rw [to_tokens_filter_content_of_no_body defaultCT v hrt, hc]

/-- Witness for C3 (amended): a concrete `create_response` with a non-empty
content list and a direct body candidate emits content calls only for the
list entry. -/
theorem create_response_content_list_priority_witness :
    create_response [] "" (some (.Ref "Foo"))
        [{ content_type := "text/plain", body := PathType.MediaType "Bar" false,
           example_ := none, examples := none }]
      = .ok { status_code := "",
              inner := some (.Value { ResponseValue.default with
                content := [{ content_type := "text/plain",
                              body := PathType.MediaType "Bar" false,
                              example_ := none, examples := none }] }) }
    ∧ (({ ResponseValue.default with
          content := [{ content_type := "text/plain",
                        body := PathType.MediaType "Bar" false,
                        example_ := none, examples := none }] } : ResponseValue).to_tokens
        (fun _ => "application/json")).filter Instr.isContent
      = ([({ content_type := "text/plain", body := PathType.MediaType "Bar" false,
             example_ := none, examples := none } : Content)]).map (fun c =>
            Instr.content c.content_type (create_content c.body c.example_ c.examples)) := by
  refine ⟨by decide, ?_⟩
  exact (create_response_content_list_priority [] "" (some (.Ref "Foo"))
    [{ content_type := "text/plain", body := PathType.MediaType "Bar" false,
       example_ := none, examples := none }]
    { status_code := "",
      inner := some (.Value { ResponseValue.default with
        content := [{ content_type := "text/plain",
                      body := PathType.MediaType "Bar" false,
                      example_ := none, examples := none }] }) }
    { ResponseValue.default with
      content := [{ content_type := "text/plain", body := PathType.MediaType "Bar" false,
                    example_ := none, examples := none }] }
    (fun _ => "application/json") (by decide) (by decide) rfl).2

/-- Claim C6: For a `Value` inner the emitted sequence is exactly `new()`, then
`.description(d)` (possibly empty), then the primary-body `.content(...)`
block (empty when no `response_type` is set, and containing only `.content`
calls), then the explicit content-list `.content(...)` calls in declared
order, then the `.header(...)` calls in declared order, then `.build()`; for
a `Ref` inner a single inline-expansion or named-reference instruction is
emitted. -/
theorem emission_order_contract :
    ∀ (defaultCT : String → String) (r : ResponseTuple),
      (∀ val, r.inner = some (.Value val) →
        r.to_tokens defaultCT
          = some ([Instr.new, Instr.description val.description]
              ++ primaryContentInstrs defaultCT val
              ++ val.content.map (fun c =>
                    Instr.content c.content_type (create_content c.body c.example_ c.examples))
              ++ val.headers.map (fun h => Instr.header h.name h)
              ++ [Instr.build])
        ∧ (val.response_type = none → primaryContentInstrs defaultCT val = [])
        ∧ (∀ i ∈ primaryContentInstrs defaultCT val, i.isContent = true))
      ∧ (∀ res, r.inner = some (.Ref res) →
          r.to_tokens defaultCT
            = some (if res.is_inline then [Instr.toResponseInline res.ty]
                    else [Instr.refFromResponseName res.ty])) := by
  intro defaultCT r
  constructor
  · intro val h
    refine ⟨?_, ?_, ?_⟩
    · rw [ResponseTuple.to_tokens, h]
      show some (val.to_tokens defaultCT) = _
      rw [to_tokens_blocks]
    · intro hrt
      unfold primaryContentInstrs
      rw [hrt]
    · intro i hi
      unfold primaryContentInstrs at hi
      cases hrt : val.response_type with
      | none => rw [hrt] at hi; exact absurd hi (by simp)
      | some rt =>
        rw [hrt] at hi
        cases hct : val.content_type with
        | some cts =>
          rw [hct] at hi
          simp only [List.mem_map] at hi
          obtain ⟨ct, _, hct'⟩ := hi
          rw [← hct']
          rfl
        | none =>
          rw [hct] at hi
          cases rt <;> simp_all [Instr.isContent]
  · intro res h
    rw [ResponseTuple.to_tokens, h]

/-- Witness for C6: concrete emissions for a `Value` inner (with body,
content list and header) and for a non-inline `Ref` inner. -/
theorem emission_order_contract_witness :
    ResponseTuple.to_tokens (fun _ => "text/plain")
        { status_code := "200",
          inner := some (.Value
            { description := "ok", response_type := some (.MediaType "String" false),
              content_type := none,
              headers := [{ name := "x-h", value_type := none, description := none }],
              example_ := none, examples := none,
              content := [{ content_type := "application/json",
                            body := PathType.Ref "Other",
                            example_ := none, examples := none }] }) }
      = some [Instr.new, Instr.description "ok",
              Instr.content "text/plain" (create_content (.MediaType "String" false) none none),
              Instr.content "application/json" (create_content (.Ref "Other") none none),
              Instr.header "x-h" { name := "x-h", value_type := none, description := none },
              Instr.build]
    ∧ ResponseTuple.to_tokens (fun _ => "text/plain")
        { status_code := "200", inner := some (.Ref { ty := "R", is_inline := false }) }
      = some [Instr.refFromResponseName "R"] := by
  constructor
  · exact (((emission_order_contract (fun _ => "text/plain")
      { status_code := "200",
        inner := some (.Value
          { description := "ok", response_type := some (.MediaType "String" false),
            content_type := none,
            headers := [{ name := "x-h", value_type := none, description := none }],
            example_ := none, examples := none,
            content := [{ content_type := "application/json",
                          body := PathType.Ref "Other",
                          example_ := none, examples := none }] }) }).1
      { description := "ok", response_type := some (.MediaType "String" false),
        content_type := none,
        headers := [{ name := "x-h", value_type := none, description := none }],
        example_ := none, examples := none,
        content := [{ content_type := "application/json",
                      body := PathType.Ref "Other",
                      example_ := none, examples := none }] } rfl).1).trans (by decide)
  · exact ((emission_order_contract (fun _ => "text/plain")
      { status_code := "200",
        inner := some (.Ref { ty := "R", is_inline := false }) }).2
      { ty := "R", is_inline := false } rfl).trans (by decide)

end Utoipa
